import Mathlib

/-!
Shallow embedding of `src/wirewall.py` (class `WireWallMonitor`).

Modelling conventions:
* A pandas cell that may be missing (NaN / NaT) is an `Option ℚ`; `none` is
  the missing value.  Timestamps are rational numbers of seconds since an
  arbitrary epoch, so `pd.to_timedelta(x, unit="S")` added to a timestamp is
  plain rational addition.  Pandas arithmetic propagates NaN/NaT, which the
  `opt*` helpers reproduce.
* A dataframe is a `List Row` in row order.  The fixed columns used by the
  code are fields of `Row`; further pass-through plotting columns live in
  `extra`.  The derived columns written by `_add_event_columns` are also
  fields (initially `none`), because the method overwrites them in place.
* The ERDDAP client object is an explicit `ErddapState` threaded through the
  functions that touch it; `to_pandas` is an abstract `fetch` function of
  that state.  Plotly figures are abstracted to the `Chart` record holding
  exactly the information the code computes (x column, y columns in trace
  order, y-axis title, the backing rows); `fig.show()` becomes an
  `Effect.display` entry in an effect trace.
-/

namespace WireWall

/-- `WireWallMonitor.window_time_column`. -/
def window_time_column : String := "time (UTC)"

/-- `WireWallMonitor.event_time_column`. -/
def event_time_column : String := "event time (UTC)"

/-- `WireWallMonitor.series_column`. -/
def series_column : String := "wireID (Dmnless)"

/-- One dataframe row.  The named fields are the columns `wirewall.py`
reads or writes; `extra` carries any further plotting columns.  `wireID` is
already a `String` (`_get_dataframe` casts the series column with
`astype(str)`). -/
structure Row where
  windowTime : Option ℚ
  wireID : String
  sampleNUM : Option ℚ
  sampleNUM10 : Option ℚ
  elMEAN : Option ℚ
  MEDelMEAN : Option ℚ
  elPTILE6 : Option ℚ
  MEDelPTILE2 : Option ℚ
  extra : List (String × Option ℚ) := []
  eventDepthPreferred : Option ℚ := none
  eventDepthFallback : Option ℚ := none
  eventTime : Option ℚ := none
  deriving DecidableEq, Repr

/-- NaN-propagating subtraction of two cells, as in pandas `a - b`. -/
def optSub (a b : Option ℚ) : Option ℚ :=
  match a, b with
  | some x, some y => some (x - y)
  | _, _ => none

/-- NaT/NaN-propagating addition, as in pandas `a + b`. -/
def optAdd (a b : Option ℚ) : Option ℚ :=
  match a, b with
  | some x, some y => some (x + y)
  | _, _ => none

/-- `time_delta` of one row, in seconds:
`(df["sampleNUM (Dmnless)"] - df["sampleNUM10 (Dmnless)"]) / 400`
(lines 50-56; events occur at ~400Hz). -/
def timeDelta (r : Row) : Option ℚ :=
  (optSub r.sampleNUM r.sampleNUM10).map (fun d => d / 400)

/-- The warning text of line 61. -/
def afterWarning : String :=
  "Data has an event that occurs after the 10min sample window."

/-- The warning text of line 67. -/
def beforeWarning : String :=
  "Data has an event that occurs before the 10min sample window."

/-- `time_delta.max() > pd.to_timedelta("10m")` (line 59).  Pandas `max`
skips NaT entries, and on an all-NaT or empty column returns NaT, for which
the comparison is `False`; hence the check holds iff some row has a present
delta exceeding 600 seconds. -/
def warnAfter (df : List Row) : Bool :=
  df.any (fun r =>
    match timeDelta r with
    | some d => decide (600 < d)
    | none => false)

/-- `time_delta.min() < pd.to_timedelta("0m")` (line 65), with the same
NaT-skipping semantics as `warnAfter`. -/
def warnBefore (df : List Row) : Bool :=
  df.any (fun r =>
    match timeDelta r with
    | some d => decide (d < 0)
    | none => false)

/-- The per-row effect of `_add_event_columns` (lines 46-71): overwrite the
two depth columns with `measurement - baseline`, and the event-time column
with `windowTime + timeDelta`.  (The code first copies the window-time
column into the event-time column and later does `+=`; composed, that is
`optAdd windowTime timeDelta`.) -/
def addEventRow (r : Row) : Row :=
  { r with
    eventDepthPreferred := optSub r.elMEAN r.MEDelMEAN
    eventDepthFallback := optSub r.elPTILE6 r.MEDelPTILE2
    eventTime := optAdd r.windowTime (timeDelta r) }

/-- `WireWallMonitor._add_event_columns`: the transformed table together
with the list of `UserWarning` messages emitted (the "after" check runs
first, line 59, then the "before" check, line 65).  Both checks read only
the raw sample columns, which the row transformation leaves unchanged. -/
def addEventColumns (df : List Row) : List Row × List String :=
  (df.map addEventRow,
    (if warnAfter df then [afterWarning] else []) ++
      (if warnBefore df then [beforeWarning] else []))

/-- The dedup key of `drop_duplicates([window_time_column, series_column])`
(lines 101-103). -/
def windowKey (r : Row) : Option ℚ × String :=
  (r.windowTime, r.wireID)

/-- First-occurrence-wins deduplication, the semantics of pandas
`drop_duplicates(keys, keep="first")`: a row is kept iff its key has not
appeared earlier.  (Pandas treats equal NaT keys as duplicates of each
other, matching `none = none` here.) -/
def dedupFirstAux (seen : List (Option ℚ × String)) : List Row → List Row
  | [] => []
  | r :: rs =>
    if windowKey r ∈ seen then dedupFirstAux seen rs
    else r :: dedupFirstAux (windowKey r :: seen) rs

/-- The window view: `df.drop_duplicates([window_time_column,
series_column], keep="first")` at lines 101-103. -/
def toWindowView (df : List Row) : List Row :=
  dedupFirstAux [] df

/-- The event view: `df.dropna(subset=[event_time_column])` at line 169 —
keep exactly the rows whose event time is present. -/
def toEventView (df : List Row) : List Row :=
  df.filter (fun r => r.eventTime.isSome)

/-- Abstraction of a plotly figure: the x column, the y columns in trace
order (an overlay figure carries the primary column then the secondary
one), the y-axis title set by `update_layout`, and the rows the figure was
built from.  Trace styling (colours per wire, square/dot markers for the
secondary traces, the time-axis range selector) is presentation detail the
claims do not mention and is not recorded. -/
structure Chart where
  xColumn : String
  yColumns : List String
  yaxisTitle : String
  data : List Row
  deriving DecidableEq, Repr

/-- `WireWallMonitor._plot_dataframe`: a scatter of column `y` against
column `x`, coloured by series, with `yaxis_title = y` (lines 85-95). -/
def plotDataframe (df : List Row) (x y : String) : Chart :=
  { xColumn := x, yColumns := [y], yaxisTitle := y, data := df }

/-- Python `s.split(" ")` on the character list: cut at every single space
(consecutive spaces yield empty fields, as in Python). -/
def splitSpaceAux : List Char → List Char → List String
  | [], acc => [String.mk acc.reverse]
  | c :: cs, acc =>
    if c = ' ' then String.mk acc.reverse :: splitSpaceAux cs []
    else splitSpaceAux cs (c :: acc)

/-- Python `s.split(" ")`. -/
def pySplitSpace (s : String) : List String :=
  splitSpaceAux s.data []

/-- `s.split(" ")[1]` of line 125.  Python raises an IndexError when the
name holds no space; column names without a unit suffix are outside the
modelled domain and get `""` here. -/
def unitToken (s : String) : String :=
  (pySplitSpace s).getD 1 ""

/-- Python `sep.join(parts)`. -/
def joinSep (sep : String) : List String → String
  | [] => ""
  | [s] => s
  | s :: rest => s ++ sep ++ joinSep sep rest

/-- Lines 125-126: `units = \x7bs.split(" ")[1] for s in [name,
name_secondary]\x7d` then `"value " + " or ".join(units)`.  The Python set
deduplicates the two tokens; its iteration order for two distinct strings
is unspecified, and the model fixes first-occurrence order. -/
def overlayTitle (name nameSecondary : String) : String :=
  "value " ++ joinSep " or "
    (List.dedup [unitToken name, unitToken nameSecondary])

/-- One iteration of the loop of `_plot_window_variables` (lines 108-161):
`name` alone gives the plain scatter; with `name_secondary` present the
figure combines the traces of both columns (primary first, line 151) and
takes the combined unit title. -/
def composeWindowChart (dd : List Row) (name : String)
    (nameSecondary : Option String) : Chart :=
  match nameSecondary with
  | none => plotDataframe dd window_time_column name
  | some ns =>
    { xColumn := window_time_column
      yColumns := [name, ns]
      yaxisTitle := overlayTitle name ns
      data := dd }

/-- `WireWallMonitor._plot_window_variables` (lines 97-163):
`figs = [None] * len(column_names)` and the loop over
`enumerate(zip(column_names, column_names_secondary))` fills position `i`
for each zipped pair, so positions past the zip length stay `None`. -/
def plotWindowVariables (df : List Row) (columnNames : List String)
    (columnNamesSecondary : List (Option String)) : List (Option Chart) :=
  let dd := toWindowView df
  let charts := (columnNames.zip columnNamesSecondary).map
    (fun p => composeWindowChart dd p.1 p.2)
  (List.range columnNames.length).map (fun i => charts.get? i)

/-- `WireWallMonitor._plot_event_variables` (lines 165-177): drop the
eventless rows, then one scatter against the event time per column. -/
def plotEventVariables (df : List Row) (columnNames : List String) :
    List Chart :=
  let de := toEventView df
  columnNames.map (fun n => plotDataframe de event_time_column n)

/-- The mutable state of the shared ERDDAP client object: the fields set in
`__init__` and the `dataset_id` selection that `_get_dataframe` sets and
resets. -/
structure ErddapState where
  server : String
  constraints : List String
  datasetId : Option String
  deriving DecidableEq, Repr

/-- Observable actions of a call: the `to_pandas` fetch against the server
and each `fig.show()`. -/
inductive Effect where
  | fetchData (datasetId : String)
  | display (c : Chart)
  deriving DecidableEq, Repr

/-- `WireWallMonitor._get_dataframe` (lines 73-83): set
`self._erddap.dataset_id` to the requested id, fetch through the client in
that state (`to_pandas` is the abstract `fetch`), add the event columns,
reset `dataset_id` to `None`, and return the dataframe with the new client
state and the fetch effect.  (The `astype(str)` cast of the series column
is the identity here since `Row.wireID` is a `String`; the warnings of
`addEventColumns` go to the warnings system, not the return value.) -/
def getDataframe (fetch : ErddapState → List Row) (st : ErddapState)
    (datasetId : String) : List Row × ErddapState × List Effect :=
  let st1 : ErddapState := { st with datasetId := some datasetId }
  let df := (addEventColumns (fetch st1)).1
  let st2 : ErddapState := { st1 with datasetId := none }
  (df, st2, [Effect.fetchData datasetId])

/-- The message of the AttributeError Python raises for `None.show()`. -/
def noneShowError : String :=
  "AttributeError: NoneType object has no attribute show"

/-- The loop `for fig in figs: fig.show()` of lines 211-212 followed by
`return figs`: display each figure in order; a `None` entry (an unfilled
window-figure slot) raises, aborting the loop before the remaining
figures are shown and before the return. -/
def displayAll : List (Option Chart) → List Effect × Except String (List Chart)
  | [] => ([], Except.ok [])
  | none :: _ => ([], Except.error noneShowError)
  | some c :: rest =>
    let p := displayAll rest
    (Effect.display c :: p.1, p.2.map (fun l => c :: l))

/-- Python `x or default` for an optional list argument: `None` and the
empty list are both falsy and yield the default. -/
def pyOr (x : Option (List α)) (default : List α) : List α :=
  match x with
  | none => default
  | some l => if l.isEmpty then default else l

/-- `WireWallMonitor.plot_variables` (lines 179-214): default the three
list arguments (`window_variables_secondary` defaults to `[None] *
len(window_variables)`), fetch and derive once via `_get_dataframe`, build
the window figures then the event figures, show them all in order and
return them.  Returns the final client state, the effect trace, and either
the figure list or the error raised while showing. -/
def plotVariables (fetch : ErddapState → List Row) (st : ErddapState)
    (datasetId : String) (windowVariables : Option (List String))
    (windowVariablesSecondary : Option (List (Option String)))
    (eventVariables : Option (List String)) :
    ErddapState × List Effect × Except String (List Chart) :=
  let wv := pyOr windowVariables []
  let wvs := pyOr windowVariablesSecondary (List.replicate wv.length none)
  let ev := pyOr eventVariables []
  let g := getDataframe fetch st datasetId
  let df := g.1
  let windowFigs := plotWindowVariables df wv wvs
  let eventFigs := (plotEventVariables df ev).map some
  let figs := windowFigs ++ eventFigs
  let shown := displayAll figs
  (g.2.1, g.2.2 ++ shown.1, shown.2)

/-- The chart list §4.4 of the spec promises for a call: one window chart
per (primary, secondary) pair in input order, then one event chart per
event variable in input order, all built from the singly derived table.
Used to compare `plotVariables` against the spec. -/
def specChartList (df : List Row) (wv : List String)
    (wvs : List (Option String)) (ev : List String) : List Chart :=
  (wv.zip wvs).map (fun p => composeWindowChart (toWindowView df) p.1 p.2) ++
    ev.map (fun n => plotDataframe (toEventView df) event_time_column n)

/-! Concrete fixtures used to instantiate the theorems below. -/

/-- A row with an event 4000 samples (10 s) after the window start. -/
def rowA : Row :=
  { windowTime := some 0
    wireID := "1"
    sampleNUM := some 4000
    sampleNUM10 := some 0
    elMEAN := some 5
    MEDelMEAN := some 2
    elPTILE6 := some 4
    MEDelPTILE2 := some 1 }

/-- A row of the same window in which no event was detected. -/
def rowB : Row :=
  { windowTime := some 0
    wireID := "2"
    sampleNUM := none
    sampleNUM10 := none
    elMEAN := some 6
    MEDelMEAN := none
    elPTILE6 := none
    MEDelPTILE2 := some 1 }

/-- A row whose event falls 264000 samples (11 minutes) after the window
start, violating the upper window bound. -/
def rowW : Row :=
  { windowTime := some 0
    wireID := "1"
    sampleNUM := some 264000
    sampleNUM10 := some 0
    elMEAN := some 5
    MEDelMEAN := some 2
    elPTILE6 := some 4
    MEDelPTILE2 := some 1 }

/-- A duplicate of `rowA`s (windowTime, wireID) key with different data. -/
def rowD : Row :=
  { windowTime := some 0
    wireID := "1"
    sampleNUM := some 8000
    sampleNUM10 := some 0
    elMEAN := some 9
    MEDelMEAN := some 2
    elPTILE6 := some 4
    MEDelPTILE2 := some 1 }

/-- A client state as left by `__init__`. -/
def st0 : ErddapState :=
  { server := "https://erddap.example", constraints := [], datasetId := none }

/-- A fetch returning the two-row fixture table. -/
def fetchAB : ErddapState → List Row := fun _ => [rowA, rowB]

/-! Helper lemmas shared by the claim theorems. -/

lemma timeDelta_addEventRow (r : Row) : timeDelta (addEventRow r) = timeDelta r := rfl

lemma addEventRow_addEventRow (r : Row) : addEventRow (addEventRow r) = addEventRow r := rfl

lemma warnAfter_map_addEventRow (df : List Row) :
    warnAfter (df.map addEventRow) = warnAfter df := by
  simp only [warnAfter, List.any_map]
  rfl

lemma warnBefore_map_addEventRow (df : List Row) :
    warnBefore (df.map addEventRow) = warnBefore df := by
  simp only [warnBefore, List.any_map]
  rfl

/-- C1. In the table produced by `_add_event_columns`, a row with both
sample counters present gets event time `windowTime + (sampleNUM -
sampleNUM10) / 400` seconds (absent when the window time itself is
absent), and a row missing either counter gets an absent event time. -/
theorem eventTime_formula (df : List Row) :
    (addEventColumns df).1 = df.map addEventRow ∧
    ∀ (r : Row) (n m : ℚ),
      (r.sampleNUM = some n → r.sampleNUM10 = some m →
        (addEventRow r).eventTime = r.windowTime.map (fun t => t + (n - m) / 400)) ∧
      ((r.sampleNUM = none ∨ r.sampleNUM10 = none) →
        (addEventRow r).eventTime = none) := by
  refine ⟨rfl, fun r n m => ⟨fun h1 h2 => ?_, fun h => ?_⟩⟩
  · cases hw : r.windowTime <;>
      simp [addEventRow, optAdd, timeDelta, optSub, h1, h2, hw]
  · rcases h with h | h <;>
      cases h1 : r.sampleNUM <;> cases h2 : r.sampleNUM10 <;>
        simp_all [addEventRow, optAdd, timeDelta, optSub]

/-- C1 witness: the formula applied to the fixture row with counters 4000
and 0 at window start 0. -/
theorem eventTime_formula_witness :
    rowA.sampleNUM = some 4000 ∧ rowA.sampleNUM10 = some 0 ∧
    (addEventRow rowA).eventTime = rowA.windowTime.map (fun t => t + ((4000 : ℚ) - 0) / 400) := by
  refine ⟨rfl, rfl, ?_⟩
  exact ((eventTime_formula [rowA]).2 rowA 4000 0).1 rfl rfl

/-- C3. In the table produced by `_add_event_columns`, the preferred event
depth of a row is `elMEAN - MEDelMEAN` and the fallback event depth is
`elPTILE_6 - MEDelPTILE_2`; each is present exactly when both of its
operands are present. -/
theorem eventDepth_formula (df : List Row) :
    (addEventColumns df).1 = df.map addEventRow ∧
    ∀ r : Row,
      (∀ a b : ℚ, r.elMEAN = some a → r.MEDelMEAN = some b →
        (addEventRow r).eventDepthPreferred = some (a - b)) ∧
      ((r.elMEAN = none ∨ r.MEDelMEAN = none) →
        (addEventRow r).eventDepthPreferred = none) ∧
      (∀ a b : ℚ, r.elPTILE6 = some a → r.MEDelPTILE2 = some b →
        (addEventRow r).eventDepthFallback = some (a - b)) ∧
      ((r.elPTILE6 = none ∨ r.MEDelPTILE2 = none) →
        (addEventRow r).eventDepthFallback = none) := by
  refine ⟨rfl, fun r => ⟨fun a b h1 h2 => ?_, fun h => ?_, fun a b h1 h2 => ?_, fun h => ?_⟩⟩
  · simp [addEventRow, optSub, h1, h2]
  · rcases h with h | h <;>
      cases h1 : r.elMEAN <;> cases h2 : r.MEDelMEAN <;>
        simp_all [addEventRow, optSub]
  · simp [addEventRow, optSub, h1, h2]
  · rcases h with h | h <;>
      cases h1 : r.elPTILE6 <;> cases h2 : r.MEDelPTILE2 <;>
        simp_all [addEventRow, optSub]

/-- C3 witness: the depth formulas applied to the fixture rows: both depths
of `rowA` are present, and both depths of `rowB` (one operand absent in
each pair) are absent. -/
theorem eventDepth_formula_witness :
    (addEventRow rowA).eventDepthPreferred = some ((5 : ℚ) - 2) ∧
    (addEventRow rowA).eventDepthFallback = some ((4 : ℚ) - 1) ∧
    (addEventRow rowB).eventDepthPreferred = none ∧
    (addEventRow rowB).eventDepthFallback = none := by
  refine ⟨?_, ?_, ?_, ?_⟩
  · exact ((eventDepth_formula [rowA]).2 rowA).1 5 2 rfl rfl
  · exact ((eventDepth_formula [rowA]).2 rowA).2.2.1 4 1 rfl rfl
  · exact ((eventDepth_formula [rowB]).2 rowB).2.1 (Or.inr rfl)
  · exact ((eventDepth_formula [rowB]).2 rowB).2.2.2 (Or.inl rfl)

/-- C9. `_add_event_columns` is idempotent: running the derivation on an
already-derived table reproduces the same table and the same warnings. -/
theorem addEventColumns_idempotent (df : List Row) :
    addEventColumns (addEventColumns df).1 = addEventColumns df := by
  simp only [addEventColumns, List.map_map]
  refine congrArg₂ Prod.mk ?_ ?_
  · exact List.map_congr_left (fun r _ => addEventRow_addEventRow r)
  · simp only [warnAfter_map_addEventRow, warnBefore_map_addEventRow]

/-- C9 witness: idempotence on the concrete two-row fixture table. -/
theorem addEventColumns_idempotent_witness :
    addEventColumns (addEventColumns [rowA, rowB]).1 = addEventColumns [rowA, rowB] :=
  addEventColumns_idempotent [rowA, rowB]

/-- C2. When a row's elapsed time to its event exceeds 600 s, the "after"
warning is among the emitted warnings; when it is negative, the "before"
warning is; the two messages are distinct, no error aborts the run (the
translation is total and every input row is processed, so the output has
one row per input row), and the out-of-range event time itself is stored
unclamped as `windowTime + delta`. -/
theorem outOfWindowWarning_spec (df : List Row) (r : Row) (hr : r ∈ df)
    (d : ℚ) (hd : timeDelta r = some d) :
    (600 < d → afterWarning ∈ (addEventColumns df).2) ∧
    (d < 0 → beforeWarning ∈ (addEventColumns df).2) ∧
    afterWarning ≠ beforeWarning ∧
    (addEventColumns df).1 = df.map addEventRow ∧
    (addEventColumns df).1.length = df.length ∧
    ∀ t : ℚ, r.windowTime = some t → (addEventRow r).eventTime = some (t + d) := by
  refine ⟨fun hgt => ?_, fun hlt => ?_, by decide, rfl, by simp [addEventColumns],
    fun t ht => ?_⟩
  · have hwa : warnAfter df = true :=
      List.any_eq_true.mpr ⟨r, hr, by simp [hd, hgt]⟩
    simp [addEventColumns, hwa]
  · have hwb : warnBefore df = true :=
      List.any_eq_true.mpr ⟨r, hr, by simp [hd, hlt]⟩
    simp [addEventColumns, hwb]
  · simp [addEventRow, optAdd, ht, hd]

/-- C2 witness: a table whose single row carries an event 660 s (11
minutes) after the window start gets the "after" warning, is fully
processed, and keeps event time `windowTime + 660`. -/
theorem outOfWindowWarning_spec_witness :
    (600 : ℚ) < 660 ∧
    afterWarning ∈ (addEventColumns [rowW]).2 ∧
    (addEventColumns [rowW]).1.length = 1 ∧
    (addEventRow rowW).eventTime = some ((0 : ℚ) + 660) := by
  have h := outOfWindowWarning_spec [rowW] rowW (by simp) 660
    (by norm_num [timeDelta, optSub, rowW])
  exact ⟨by norm_num, h.1 (by norm_num), h.2.2.2.2.1, h.2.2.2.2.2 0 rfl⟩

/-- The key filter of the deduplicated list equals the first key match of
the input, independently of the keys already seen (empty when the key was
seen). -/
lemma dedupFirstAux_filter (k : Option ℚ × String) :
    ∀ (seen : List (Option ℚ × String)) (l : List Row),
      (dedupFirstAux seen l).filter (fun r => decide (windowKey r = k)) =
        if k ∈ seen then [] else (l.find? (fun r => decide (windowKey r = k))).toList := by
  intro seen l
  induction l generalizing seen with
  | nil => simp [dedupFirstAux]
  | cons r rs ih =>
    simp only [dedupFirstAux]
    by_cases hmem : windowKey r ∈ seen
    · rw [if_pos hmem, ih]
      by_cases hk : k ∈ seen
      · simp [hk]
      · have hne : ¬ (windowKey r = k) := fun h => hk (h ▸ hmem)
        simp [hk, List.find?_cons, hne]
    · rw [if_neg hmem, List.filter_cons, ih]
      by_cases hrk : windowKey r = k
      · have hk : ¬ k ∈ seen := fun h => hmem (hrk ▸ h)
        simp [hrk, hk, List.find?_cons]
      · by_cases hk : k ∈ seen <;>
          simp [hrk, hk, List.find?_cons, Ne.symm hrk]

/-- Deduplication only removes rows. -/
lemma dedupFirstAux_sublist :
    ∀ (seen : List (Option ℚ × String)) (l : List Row),
      List.Sublist (dedupFirstAux seen l) l := by
  intro seen l
  induction l generalizing seen with
  | nil => simp [dedupFirstAux]
  | cons r rs ih =>
    simp only [dedupFirstAux]
    by_cases hmem : windowKey r ∈ seen
    · rw [if_pos hmem]
      exact List.Sublist.cons r (ih seen)
    · rw [if_neg hmem]
      exact List.Sublist.cons₂ r (ih _)

/-- C4. The window view keeps, for every (windowTime, wireID) key, exactly
the first input row bearing that key (no row when the key never occurs),
and it is a sublist of the input, so the kept rows are unchanged and in
input order. -/
theorem windowView_dedup (df : List Row) (k : Option ℚ × String) :
    (toWindowView df).filter (fun r => decide (windowKey r = k)) =
      (df.find? (fun r => decide (windowKey r = k))).toList ∧
    List.Sublist (toWindowView df) df := by
  refine ⟨?_, dedupFirstAux_sublist [] df⟩
  rw [toWindowView, dedupFirstAux_filter k [] df]
  simp

/-- C4 witness: in a table whose key (some 0, "1") occurs twice (rows
`rowA` and `rowD`) and whose key (some 0, "2") occurs once, the window view
keeps exactly `rowA` for the duplicated key and `rowB` for the unique
one. -/
theorem windowView_dedup_witness :
    (toWindowView [rowA, rowB, rowD]).filter
        (fun r => decide (windowKey r = (some 0, "1"))) = [rowA] ∧
    (toWindowView [rowA, rowB, rowD]).filter
        (fun r => decide (windowKey r = (some 0, "2"))) = [rowB] := by
  constructor
  · rw [(windowView_dedup [rowA, rowB, rowD] (some 0, "1")).1]
    decide
  · rw [(windowView_dedup [rowA, rowB, rowD] (some 0, "2")).1]
    decide

/-- C5. The event view is a sublist of its input (order and whole rows
preserved), contains every input row whose event time is present, contains
only such rows, and has exactly as many rows as the input has rows with a
present event time. -/
theorem eventView_spec (df : List Row) :
    List.Sublist (toEventView df) df ∧
    (∀ r, r ∈ df → r.eventTime.isSome = true → r ∈ toEventView df) ∧
    (∀ r, r ∈ toEventView df → r ∈ df ∧ r.eventTime.isSome = true) ∧
    (toEventView df).length = df.countP (fun r => r.eventTime.isSome) := by
  refine ⟨List.filter_sublist df, fun r hr hs => ?_, fun r hr => ?_, ?_⟩
  · exact List.mem_filter.mpr ⟨hr, hs⟩
  · exact List.mem_filter.mp hr
  · rw [toEventView, ← List.countP_eq_length_filter]

lemma eventTime_rowA : (addEventRow rowA).eventTime = some 10 := by
  norm_num [addEventRow, optAdd, timeDelta, optSub, rowA]

lemma eventTime_rowB : (addEventRow rowB).eventTime = none := rfl

/-- C5 witness: on the derived fixture table, the event view keeps exactly
the derived row of `rowA` (the only row with a present event time) and
drops the derived row of `rowB`. -/
theorem eventView_spec_witness :
    addEventRow rowA ∈ toEventView (addEventColumns [rowA, rowB]).1 ∧
    (toEventView (addEventColumns [rowA, rowB]).1).length = 1 ∧
    ¬ addEventRow rowB ∈ toEventView (addEventColumns [rowA, rowB]).1 := by
  have h := eventView_spec (addEventColumns [rowA, rowB]).1
  have hA : addEventRow rowA ∈ (addEventColumns [rowA, rowB]).1 := by
    simp [addEventColumns]
  have hAs : (addEventRow rowA).eventTime.isSome = true := by
    rw [eventTime_rowA]; rfl
  refine ⟨h.2.1 _ hA hAs, ?_, ?_⟩
  · rw [h.2.2.2]
    simp [addEventColumns, List.countP_cons, eventTime_rowA, eventTime_rowB]
  · intro hmem
    have hBs := (h.2.2.1 _ hmem).2
    rw [eventTime_rowB] at hBs
    simp at hBs

/-- Looking every index of a list up in itself yields the list boxed in
`some`. -/
lemma range_map_getq (l : List α) :
    (List.range l.length).map (fun i => l.get? i) = l.map some := by
  induction l with
  | nil => simp
  | cons a t ih =>
    rw [List.length_cons, List.range_succ_eq_map, List.map_cons, List.map_map,
      List.map_cons]
    refine congrArg₂ List.cons rfl ?_
    simpa [Function.comp_def] using ih

/-- Showing a list of filled figure slots displays them all in order and
returns them. -/
lemma displayAll_map_some (l : List Chart) :
    displayAll (l.map some) = (l.map Effect.display, Except.ok l) := by
  induction l with
  | nil => rfl
  | cons c t ih => simp [displayAll, ih, Except.map]

/-- Showing a figure list holding an unfilled slot raises. -/
lemma displayAll_err (figs : List (Option Chart)) (h : none ∈ figs) :
    (displayAll figs).2 = Except.error noneShowError := by
  induction figs with
  | nil => simp at h
  | cons x t ih =>
    cases x with
    | none => rfl
    | some c =>
      have ht : none ∈ t := by simpa using h
      simp [displayAll, ih ht, Except.map]

lemma pyOr_nonempty (l d : List α) (h : l ≠ []) : pyOr (some l) d = l := by
  cases l with
  | nil => exact absurd rfl h
  | cons a t => rfl

/-- The window-figure list when the secondary list is at least as long as
the primary one: every slot is filled, in order of the zipped pairs. -/
lemma plotWindowVariables_full (df : List Row) (names : List String)
    (sec : List (Option String)) (h : names.length ≤ sec.length) :
    plotWindowVariables df names sec =
      ((names.zip sec).map
        (fun p => composeWindowChart (toWindowView df) p.1 p.2)).map some := by
  have hlen2 : ((names.zip sec).map
      (fun p => composeWindowChart (toWindowView df) p.1 p.2)).length = names.length := by
    rw [List.length_map, List.length_zip, Nat.min_eq_left h]
  simp only [plotWindowVariables]
  rw [← hlen2, range_map_getq]

/-- `plot_variables` on a secondary list at least as long as the primary
list: the state is reset, one fetch happens, the promised charts are all
displayed in order and returned. -/
lemma plotVariables_ok (fetch : ErddapState → List Row) (st : ErddapState)
    (datasetId : String) (wv : Option (List String))
    (wvs : Option (List (Option String))) (ev : Option (List String))
    (hlen : (pyOr wv []).length ≤
      (pyOr wvs (List.replicate (pyOr wv []).length none)).length) :
    plotVariables fetch st datasetId wv wvs ev =
      ({ st with datasetId := none },
       Effect.fetchData datasetId ::
         (specChartList
             ((addEventColumns (fetch { st with datasetId := some datasetId })).1)
             (pyOr wv []) (pyOr wvs (List.replicate (pyOr wv []).length none))
             (pyOr ev [])).map Effect.display,
       Except.ok (specChartList
           ((addEventColumns (fetch { st with datasetId := some datasetId })).1)
           (pyOr wv []) (pyOr wvs (List.replicate (pyOr wv []).length none))
           (pyOr ev []))) := by
  simp only [plotVariables, getDataframe, plotEventVariables]
  rw [plotWindowVariables_full _ _ _ hlen, ← List.map_append, displayAll_map_some]
  simp [specChartList, plotEventVariables]

/-- `plot_variables` on a nonempty secondary list shorter than the primary
list raises while showing the first unfilled figure slot. -/
lemma plotVariables_err (fetch : ErddapState → List Row) (st : ErddapState)
    (datasetId : String) (wv : List String) (l : List (Option String))
    (ev : Option (List String)) (h0 : l ≠ []) (hlt : l.length < wv.length) :
    (plotVariables fetch st datasetId (some wv) (some l) ev).2.2 =
      Except.error noneShowError := by
  have hwv : wv ≠ [] := by
    intro h
    rw [h] at hlt
    simp at hlt
  have hwv2 : pyOr (some wv) [] = wv := pyOr_nonempty wv [] hwv
  have hl2 : pyOr (some l) (List.replicate wv.length none) = l :=
    pyOr_nonempty l _ h0
  simp only [plotVariables, getDataframe, hwv2, hl2, plotWindowVariables]
  apply displayAll_err
  apply List.mem_append_left
  apply List.mem_map.mpr
  refine ⟨l.length, List.mem_range.mpr hlt, ?_⟩
  apply List.get?_eq_none.mpr
  rw [List.length_map, List.length_zip]
  exact min_le_right _ _

/-- C6. Under the documented precondition that the (defaulted) secondary
list is at least as long as the window list, `plot_variables` fetches the
table exactly once, derives it once, returns the window charts in input
order followed by the event charts in input order, and displays exactly
those charts in that order; the chart count is one per window variable
plus one per event variable. -/
theorem plotVariables_spec (fetch : ErddapState → List Row) (st : ErddapState)
    (datasetId : String) (wv : Option (List String))
    (wvs : Option (List (Option String))) (ev : Option (List String))
    (hlen : (pyOr wv []).length ≤
      (pyOr wvs (List.replicate (pyOr wv []).length none)).length) :
    plotVariables fetch st datasetId wv wvs ev =
      ({ st with datasetId := none },
       Effect.fetchData datasetId ::
         (specChartList
             ((addEventColumns (fetch { st with datasetId := some datasetId })).1)
             (pyOr wv []) (pyOr wvs (List.replicate (pyOr wv []).length none))
             (pyOr ev [])).map Effect.display,
       Except.ok (specChartList
           ((addEventColumns (fetch { st with datasetId := some datasetId })).1)
           (pyOr wv []) (pyOr wvs (List.replicate (pyOr wv []).length none))
           (pyOr ev []))) ∧
    (specChartList
        ((addEventColumns (fetch { st with datasetId := some datasetId })).1)
        (pyOr wv []) (pyOr wvs (List.replicate (pyOr wv []).length none))
        (pyOr ev [])).length = (pyOr wv []).length + (pyOr ev []).length := by
  refine ⟨plotVariables_ok fetch st datasetId wv wvs ev hlen, ?_⟩
  rw [specChartList, List.length_append, List.length_map, List.length_map,
    List.length_zip, Nat.min_eq_left hlen]

/-- C6 witness: the orchestration applied to the fixture client, one
window variable with no secondary list and one event variable. -/
theorem plotVariables_spec_witness :
    plotVariables fetchAB st0 "wirewall" (some ["elMEAN (cm)"]) none
        (some ["event depth preferred (cm)"]) =
      ({ st0 with datasetId := none },
       Effect.fetchData "wirewall" ::
         (specChartList (addEventColumns [rowA, rowB]).1 ["elMEAN (cm)"] [none]
             ["event depth preferred (cm)"]).map Effect.display,
       Except.ok (specChartList (addEventColumns [rowA, rowB]).1 ["elMEAN (cm)"]
           [none] ["event depth preferred (cm)"])) := by
  have h := plotVariables_spec fetchAB st0 "wirewall" (some ["elMEAN (cm)"]) none
    (some ["event depth preferred (cm)"]) (by simp [pyOr])
  simpa [pyOr, fetchAB, List.replicate] using h.1

/-- C7 counterexample: a secondary list of length 2 against a primary list
of length 1 is a length mismatch, yet the call returns successfully — no
input-shape error is raised — and the extra secondary entry "d (m)" is
silently ignored: the single returned chart pairs "a (cm)" with
"c (cm)" only. -/
theorem plotVariables_lengthMismatch_counterexample :
    ([some "c (cm)", some "d (m)"] : List (Option String)).length ≠
      (["a (cm)"] : List String).length ∧
    (plotVariables fetchAB st0 "wirewall" (some ["a (cm)"])
        (some [some "c (cm)", some "d (m)"]) none).2.2 =
      Except.ok [composeWindowChart
        (toWindowView (addEventColumns [rowA, rowB]).1) "a (cm)" (some "c (cm)")] := by
  exact ⟨by decide, rfl⟩

/-- C7 amended: `plot_variables` performs no length check on the secondary
list.  A nonempty secondary list shorter than the window list leaves
figure slots unfilled, so the call fails — but with an attribute error
while showing a `None` figure, not a dedicated input-shape error; a
secondary list longer than the window list raises nothing at all: the
extra entries are silently dropped by `zip` and the call returns the
charts of the zipped prefix, one per window variable. -/
theorem plotVariables_lengthMismatch (fetch : ErddapState → List Row)
    (st : ErddapState) (datasetId : String) (wv : List String)
    (l : List (Option String)) (ev : Option (List String)) :
    (l ≠ [] → l.length < wv.length →
      (plotVariables fetch st datasetId (some wv) (some l) ev).2.2 =
        Except.error noneShowError) ∧
    (wv.length ≤ l.length →
      (plotVariables fetch st datasetId (some wv) (some l) ev).2.2 =
        Except.ok (specChartList
          ((addEventColumns (fetch { st with datasetId := some datasetId })).1)
          wv l (pyOr ev [])) ∧
      (wv.zip l).length = wv.length) := by
  refine ⟨fun h0 hlt => plotVariables_err fetch st datasetId wv l ev h0 hlt,
    fun hle => ?_⟩
  have hwv2 : pyOr (some wv) [] = wv := by
    cases wv with
    | nil => rfl
    | cons a t => rfl
  have hl2 : pyOr (some l) (List.replicate wv.length none) = l := by
    cases l with
    | nil =>
      have hwv0 : wv = [] := by
        cases wv with
        | nil => rfl
        | cons a t => simp at hle
      subst hwv0
      rfl
    | cons a t => rfl
  have h := plotVariables_ok fetch st datasetId (some wv) (some l) ev
    (by rw [hwv2, hl2]; exact hle)
  rw [hwv2, hl2] at h
  constructor
  · rw [h]
  · rw [List.length_zip, Nat.min_eq_left hle]

/-- C7 amended witness: a two-variable window list with a one-entry
secondary list fails with the attribute error, and a one-variable window
list with a two-entry secondary list succeeds with a zipped prefix of
length one. -/
theorem plotVariables_lengthMismatch_witness :
    (plotVariables fetchAB st0 "wirewall" (some ["a (cm)", "b (m)"])
        (some [some "c (cm)"]) none).2.2 = Except.error noneShowError ∧
    ((["a (cm)"] : List String).zip
        ([some "c (cm)", some "d (m)"] : List (Option String))).length = 1 := by
  constructor
  · exact (plotVariables_lengthMismatch fetchAB st0 "wirewall" ["a (cm)", "b (m)"]
      [some "c (cm)"] none).1 (by decide) (by decide)
  · exact ((plotVariables_lengthMismatch fetchAB st0 "wirewall" ["a (cm)"]
      [some "c (cm)", some "d (m)"] none).2 (by decide)).2

lemma joinSep_singleton (sep s : String) : joinSep sep [s] = s := rfl

lemma joinSep_pair (sep a b : String) : joinSep sep [a, b] = a ++ sep ++ b := rfl

/-- C8 counterexample: overlaying "a (cm)" with "c (cm)" yields the y-axis
title "value (cm)" — the token after the first space keeps its
parentheses — not "value cm" as claimed. -/
theorem overlayTitle_counterexample :
    (composeWindowChart [] "a (cm)" (some "c (cm)")).yaxisTitle = "value (cm)" ∧
    "value (cm)" ≠ "value cm" := by
  exact ⟨rfl, by decide⟩

/-- C8 amended: for an overlay chart the unit token of each column name is
its second space-separated field — for a name with a single space, the
substring after that space with any parentheses kept.  Equal tokens are
deduplicated, distinct tokens are joined with " or ", and the prefix is
"value "; in particular "a (cm)" overlaid with "c (cm)" titles the y-axis
"value (cm)". -/
theorem overlayTitle_spec (dd : List Row) (name ns : String) :
    (unitToken name = unitToken ns →
      (composeWindowChart dd name (some ns)).yaxisTitle =
        "value " ++ unitToken ns) ∧
    (unitToken name ≠ unitToken ns →
      (composeWindowChart dd name (some ns)).yaxisTitle =
        "value " ++ (unitToken name ++ " or " ++ unitToken ns)) ∧
    (composeWindowChart dd "a (cm)" (some "c (cm)")).yaxisTitle =
      "value (cm)" := by
  have hs : ∀ s : String, ([s] : List String).dedup = [s] := fun s => by
    rw [List.dedup_cons_of_not_mem (by simp), List.dedup_nil]
  refine ⟨fun he => ?_, fun hne => ?_, rfl⟩
  · simp only [composeWindowChart, overlayTitle, he]
    rw [List.dedup_cons_of_mem (by simp), hs, joinSep_singleton]
  · simp only [composeWindowChart, overlayTitle]
    rw [List.dedup_cons_of_not_mem (by simp [hne]), hs, joinSep_pair]

/-- C8 amended witness: equal tokens collapse ("value (cm)") and distinct
tokens are joined ("value (cm) or (m)"). -/
theorem overlayTitle_spec_witness :
    (composeWindowChart [] "a (cm)" (some "c (cm)")).yaxisTitle = "value (cm)" ∧
    (composeWindowChart [] "a (cm)" (some "b (m)")).yaxisTitle =
      "value " ++ ("(cm)" ++ " or " ++ "(m)") := by
  constructor
  · exact (overlayTitle_spec [] "a (cm)" "c (cm)").2.2
  · have h := (overlayTitle_spec [] "a (cm)" "b (m)").2.1 (by decide)
    rw [show unitToken "a (cm)" = "(cm)" from rfl,
      show unitToken "b (m)" = "(m)" from rfl] at h
    exact h

/-- C10. `_get_dataframe` runs the fetch against the client carrying the
requested dataset id, hands back a client state whose dataset id is reset
to `None` (other client fields untouched), and consequently every
`plot_variables` call ends with no dataset selected on the shared
client. -/
theorem getDataframe_resetsDatasetId (fetch : ErddapState → List Row)
    (st : ErddapState) (datasetId : String) :
    (getDataframe fetch st datasetId).2.1 = { st with datasetId := none } ∧
    (getDataframe fetch st datasetId).1 =
      (addEventColumns (fetch { st with datasetId := some datasetId })).1 ∧
    ({ st with datasetId := some datasetId } : ErddapState).datasetId =
      some datasetId ∧
    ∀ (wv : Option (List String)) (wvs : Option (List (Option String)))
      (ev : Option (List String)),
        (plotVariables fetch st datasetId wv wvs ev).1.datasetId = none :=
  ⟨rfl, rfl, rfl, fun _ _ _ => rfl⟩

/-- C10 witness: the reset observed on the fixture client. -/
theorem getDataframe_resetsDatasetId_witness :
    (getDataframe fetchAB st0 "wirewall").2.1.datasetId = none ∧
    (plotVariables fetchAB st0 "wirewall" none none none).1.datasetId = none := by
  have h := getDataframe_resetsDatasetId fetchAB st0 "wirewall"
  exact ⟨by rw [h.1], h.2.2.2 none none none⟩

end WireWall
